import Mathlib

/-!
Verification of the WhatsApp Baileys microservice (`src/server.js`).

The development shallowly embeds the program: the global mutable maps
(`clients`, `qrCodes`, `qrTimeouts`, `clientStates`, `reconnectAttempts`)
and the on-disk auth store become a `ServerState` record, the
`connection.update` callback becomes a step function on that record, and
the HTTP routes become functions from state to state plus a response.
JavaScript truthiness of strings and numbers is modelled explicitly where
the source relies on it (the `||` chains, `substring`, `split`).
-/

namespace Wableys

/-- JS truthiness of a possibly-absent string: `undefined`, `null` and the
empty string are falsy; every other string is truthy. -/
def truthyS : Option String → Bool
  | some s => s != ""
  | none => false

/-- JS `a || b` on a possibly-absent string `a` with a string default `b`:
returns `a` when it is truthy, else `b`. -/
def jsOr (o : Option String) (d : String) : String :=
  if truthyS o then o.getD "" else d

/-- A left-to-right JS `||` chain over possibly-absent strings with a final
default expression. -/
def firstTruthy : List (Option String) → String → String
  | [], d => d
  | o :: os, d => if truthyS o then o.getD "" else firstTruthy os d

/-- JS `s.substring(0, n)`: the first `n` characters of `s`. -/
def jsSubstr (s : String) (n : Nat) : String := String.mk (s.data.take n)

/-- Whether the first character list is an initial segment of the second. -/
def startsWithChars : List Char → List Char → Bool
  | [], _ => true
  | _ :: _, [] => false
  | c :: cs, d :: ds => c == d && startsWithChars cs ds

/-- Whether the first character list occurs contiguously inside the second. -/
def hasSubChars (pat : List Char) : List Char → Bool
  | [] => startsWithChars pat []
  | d :: ds => startsWithChars pat (d :: ds) || hasSubChars pat ds

/-- JS `s.includes(pat)`. -/
def strContains (s pat : String) : Bool := hasSubChars pat.data s.data

/-- The part of `s` strictly before the first occurrence of `c`,
i.e. JS `s.split(c)[0]`. -/
def beforeChar (c : Char) (s : String) : String :=
  String.mk (s.data.takeWhile (fun d => d != c))

/-- Configuration constant `MAX_CONCURRENT_SESSIONS` (server.js line 26). -/
def MAX_CONCURRENT_SESSIONS : Nat := 5

/-- Configuration constant `QR_TIMEOUT_MS` (server.js line 27): 3 minutes. -/
def QR_TIMEOUT_MS : Nat := 3 * 60 * 1000

/-- Configuration constant `MAX_RECONNECT_ATTEMPTS` (server.js line 44). -/
def MAX_RECONNECT_ATTEMPTS : Nat := 5

/-- The transport's terminal-logout status code: Baileys
`DisconnectReason.loggedOut` (an external constant, value 401). Only its
identity matters to the program: every comparison in the source is an
(in)equality against this code. -/
def DisconnectReason_loggedOut : Nat := 401

/-- Configuration constant `WEBHOOK_URL` (server.js line 20, default value). -/
def WEBHOOK_URL : String :=
  "https://wmzbqsegsyagcjgxefqs.supabase.co/functions/v1/webhook-whatsapp-personal"

/-- `supabaseUrl` as computed in the media branch (server.js line 452). -/
def supabaseUrl : String :=
  String.replace WEBHOOK_URL ("/functions/v1/webhook-whatsapp-personal") ("")

/-- Helper `jidToPhone` (server.js lines 65-68):
`jid.split('@')[0].split(':')[0]`, with falsy input mapped to `''`. -/
def jidToPhone (jid : String) : String :=
  if jid = "" then "" else beforeChar (':') (beforeChar ('@') jid)

/-- A contact record of the in-memory contacts store (`store.contacts`). -/
structure WAContact where
  id : String
  name : Option String := none
  notify : Option String := none
  verifiedName : Option String := none
deriving DecidableEq

/-- The per-session in-memory store (server.js line 197): a map of contacts. -/
structure WAStore where
  contacts : String → Option WAContact

/-- Helper `resolveContactId` (server.js lines 71-85): dereference a `@lid`
alias through the contacts store when a usable directory entry exists, else
pass the jid through unchanged.  The `pushName` argument is only logged. -/
def resolveContactId (jid : String) (_pushName : Option String) (store : WAStore) : String :=
  if strContains jid ("@lid") then
    match store.contacts jid with
    | some contact =>
        if contact.id != "" && !(strContains contact.id ("@lid")) then contact.id else jid
    | none => jid
  else jid

/-- Helper `getContactName` (server.js lines 88-96): directory name fields,
then the push name, then the phone derived from the jid. -/
def getContactName (jid : String) (store : WAStore) (pushName : Option String) : String :=
  match store.contacts jid with
  | some contact =>
      firstTruthy [contact.name, contact.notify, contact.verifiedName, pushName] (jidToPhone jid)
  | none => firstTruthy [pushName] (jidToPhone jid)

/-- A Baileys media part: the fields of `imageMessage` / `videoMessage` /
`documentMessage` / `stickerMessage` that the program reads. -/
structure WAMediaPart where
  caption : Option String := none
  mimetype : Option String := none
deriving DecidableEq

/-- A Baileys `audioMessage`: the fields the program reads. -/
structure WAAudioPart where
  ptt : Bool := false
  mimetype : Option String := none
  seconds : Option Nat := none
deriving DecidableEq

mutual

/-- A Baileys message content object (`msg.message`), restricted to the
fields the program reads.  `extendedTextMessage.contextInfo.quotedMessage`
is itself a message content object, hence the mutual recursion. -/
inductive WAMsgContent : Type where
  | mk (conversation : Option String)
       (extendedTextMessage : Option WAExtendedText)
       (imageMessage : Option WAMediaPart)
       (videoMessage : Option WAMediaPart)
       (audioMessage : Option WAAudioPart)
       (documentMessage : Option WAMediaPart)
       (stickerMessage : Option WAMediaPart)

/-- A Baileys `extendedTextMessage`. -/
inductive WAExtendedText : Type where
  | mk (text : Option String) (contextInfo : Option WAContextInfo)

/-- A Baileys `contextInfo` of an extended text message. -/
inductive WAContextInfo : Type where
  | mk (quotedMessage : Option WAMsgContent)
       (stanzaId : Option String)
       (participant : Option String)

end

def WAMsgContent.conversation : WAMsgContent → Option String
  | .mk c _ _ _ _ _ _ => c

def WAMsgContent.extendedTextMessage : WAMsgContent → Option WAExtendedText
  | .mk _ e _ _ _ _ _ => e

def WAMsgContent.imageMessage : WAMsgContent → Option WAMediaPart
  | .mk _ _ i _ _ _ _ => i

def WAMsgContent.videoMessage : WAMsgContent → Option WAMediaPart
  | .mk _ _ _ v _ _ _ => v

def WAMsgContent.audioMessage : WAMsgContent → Option WAAudioPart
  | .mk _ _ _ _ a _ _ => a

def WAMsgContent.documentMessage : WAMsgContent → Option WAMediaPart
  | .mk _ _ _ _ _ d _ => d

def WAMsgContent.stickerMessage : WAMsgContent → Option WAMediaPart
  | .mk _ _ _ _ _ _ s => s

def WAExtendedText.text : WAExtendedText → Option String
  | .mk t _ => t

def WAExtendedText.contextInfo : WAExtendedText → Option WAContextInfo
  | .mk _ ci => ci

def WAContextInfo.quotedMessage : WAContextInfo → Option WAMsgContent
  | .mk q _ _ => q

def WAContextInfo.stanzaId : WAContextInfo → Option String
  | .mk _ i _ => i

def WAContextInfo.participant : WAContextInfo → Option String
  | .mk _ _ p => p

/-- Truthiness of `message.extendedTextMessage?.contextInfo?.quotedMessage`
(server.js line 122). -/
def hasQuoted (m : WAMsgContent) : Bool :=
  match m.extendedTextMessage with
  | some et =>
      match et.contextInfo with
      | some ci => ci.quotedMessage.isSome
      | none => false
  | none => false

/-- The message classification of the program: first component is the
`type` string, second the `baileysType` string (server.js lines 110-125). -/
inductive MsgType
  | text | media | voice | sticker | reply
deriving DecidableEq

/-- Helper `detectMessageType` (server.js lines 110-125). -/
def detectMessageType : Option WAMsgContent → MsgType × Option String
  | none => (.text, none)
  | some m =>
    if m.imageMessage.isSome then (.media, some ("image"))
    else if m.videoMessage.isSome then (.media, some ("video"))
    else if m.audioMessage.isSome then
      (if (m.audioMessage.map WAAudioPart.ptt).getD false then (.voice, some ("ptt"))
       else (.media, some ("audio")))
    else if m.documentMessage.isSome then (.media, some ("document"))
    else if m.stickerMessage.isSome then (.sticker, some ("sticker"))
    else if hasQuoted m then (.reply, some ("text"))
    else (.text, some ("text"))

/-- Helper `extractMessageText` (server.js lines 99-107): a JS `||` chain
over the text-bearing fields, defaulting to the empty string. -/
def extractMessageText : Option WAMsgContent → String
  | none => ""
  | some m =>
      firstTruthy
        [m.conversation,
         m.extendedTextMessage.bind WAExtendedText.text,
         m.imageMessage.bind WAMediaPart.caption,
         m.videoMessage.bind WAMediaPart.caption,
         m.documentMessage.bind WAMediaPart.caption] ("")

/-- The mime type chain of the media branch (server.js lines 442-447). -/
def mimeTypeOf (m : WAMsgContent) : String :=
  firstTruthy
    [m.imageMessage.bind WAMediaPart.mimetype,
     m.videoMessage.bind WAMediaPart.mimetype,
     m.audioMessage.bind WAAudioPart.mimetype,
     m.documentMessage.bind WAMediaPart.mimetype,
     m.stickerMessage.bind WAMediaPart.mimetype] ("application/octet-stream")

/-- The file extension computation
`mimeType.split('/')[1]?.split(';')[0] || 'bin'` (server.js line 448). -/
def mimeExtension (mime : String) : String :=
  match mime.splitOn ("/") with
  | _ :: second :: _ =>
      (let e := (second.splitOn (";")).headD ("")
       if e = "" then "bin" else e)
  | _ => "bin"

/-- The media file name `whatsapp-<id>-<now>.<ext>` (server.js line 449). -/
def mediaFileNameFor (msgId : String) (now : Nat) (m : WAMsgContent) : String :=
  "whatsapp-" ++ msgId ++ "-" ++ toString now ++ "." ++ mimeExtension (mimeTypeOf m)

/-- The public asset reference built on successful upload (server.js line 465). -/
def mediaUrlFor (msgId : String) (now : Nat) (m : WAMsgContent) : String :=
  supabaseUrl ++ "/storage/v1/object/public/whatsapp-media/" ++ mediaFileNameFor msgId now m

/-- The `msg.key` object of an upserted message: the fields the program reads. -/
structure WAKey where
  fromMe : Bool
  remoteJid : Option String
  participant : Option String := none
  id : String
deriving DecidableEq

/-- One message of a `messages.upsert` batch: the fields the program reads. -/
structure InboundMsg where
  key : WAKey
  message : Option WAMsgContent
  pushName : Option String := none
  messageTimestamp : Nat

/-- Outcome of the media download/upload side channel for one message:
the download threw or produced no buffer, or the storage POST failed, or it
succeeded.  The collaborators themselves (Baileys download, Supabase
storage) are external; the program only branches on this outcome. -/
inductive MediaOutcome
  | noBuffer | uploadFailed | uploadOk
deriving DecidableEq

/-- The `media || voice || sticker` class test, used for the download
condition (line 432), the metadata condition (line 478) and `has_media`
(line 534). -/
def isMediaClass : MsgType → Bool
  | .media => true
  | .voice => true
  | .sticker => true
  | _ => false

/-- The `quoted_message` object of the webhook metadata (server.js
lines 490-494). -/
structure QuotedMeta where
  id : Option String
  body : String
  sender : String
deriving DecidableEq

/-- The `message_metadata` object of the webhook payload (server.js
lines 419-500).  An absent JSON field is `none`. -/
structure MessageMeta where
  timestamp : Nat
  origin : String
  participant : Option String
  from_me : Bool
  sender_name : Option String
  media_type : Option String
  media_url : Option String
  media_filename : Option String
  quoted_message : Option QuotedMeta
  voice_duration : Option Nat
deriving DecidableEq

/-- The webhook POST body (server.js lines 527-541).  The JSON field
`from` is called `origin` and `to` is called `dest` here because `from` is
reserved in Lean. -/
structure WebhookPayload where
  agent_id : String
  origin : String
  dest : Option String
  participant : Option String
  body : String
  timestamp : Nat
  has_media : Bool
  contact_name : String
  is_group : Bool
  sender_name : Option String
  from_me : Bool
  message_type : MsgType
  message_metadata : MessageMeta
deriving DecidableEq

/-- The per-message body of the `messages.upsert` handler (server.js
lines 381-548): classification, name resolution, media side channel,
metadata and webhook payload construction.  Returns `none` when the
message is skipped (no `remoteJid`, a status broadcast, or no content);
`some payload` means the payload is POSTed to the webhook.  `selfJid` is
`sock.user?.id`; `now` is the clock read `Date.now()` of the media branch;
`media` is the outcome delivered by the external media collaborators. -/
def processMessage (agentId : String) (selfJid : Option String) (store : WAStore)
    (now : Nat) (msg : InboundMsg) (media : MediaOutcome) : Option WebhookPayload :=
  let fromMe := msg.key.fromMe
  match msg.key.remoteJid with
  | none => none
  | some remoteJid =>
    if remoteJid = "status@broadcast" then none else
    match msg.message with
    | none => none
    | some content =>
      let conversationTarget := resolveContactId remoteJid msg.pushName store
      let isGroup := remoteJid.endsWith ("@g.us")
      let participant : Option String :=
        if isGroup then (if truthyS msg.key.participant then msg.key.participant else none)
        else none
      let contactName :=
        if isGroup then
          (let n := getContactName remoteJid store none
           if n = "" then "Unknown Group" else n)
        else getContactName conversationTarget store msg.pushName
      let senderName : Option String :=
        if isGroup then
          match participant with
          | some p => if !fromMe then some (getContactName p store msg.pushName) else none
          | none => none
        else none
      let td := detectMessageType (some content)
      let messageType := td.1
      let baileysType := td.2
      -- Media download and upload run only for inbound media-class messages
      -- (server.js line 432); on failure `mediaUrl` stays null.
      let mediaPair : Option String × Option String :=
        if isMediaClass messageType && !fromMe then
          match media with
          | .noBuffer => (none, none)
          | .uploadFailed => (none, some (mediaFileNameFor msg.key.id now content))
          | .uploadOk =>
              (some (mediaUrlFor msg.key.id now content),
               some (mediaFileNameFor msg.key.id now content))
        else (none, none)
      let mediaUrl := mediaPair.1
      let meta : MessageMeta :=
        { timestamp := msg.messageTimestamp
          origin := conversationTarget
          participant := participant
          from_me := fromMe
          sender_name :=
            match senderName with
            | some n => if n = "" then none else some n
            | none => none
          media_type := if isMediaClass messageType then baileysType else none
          media_url := if isMediaClass messageType then mediaUrl else none
          media_filename :=
            if isMediaClass messageType && mediaUrl.isSome then mediaPair.2 else none
          quoted_message :=
            if messageType = MsgType.reply then
              match content.extendedTextMessage with
              | some et =>
                  (match et.contextInfo with
                   | some ci =>
                       (match ci.quotedMessage with
                        | some qm =>
                            some { id := ci.stanzaId
                                   body := jsSubstr (extractMessageText (some qm)) 100
                                   sender := jsOr ci.participant remoteJid }
                        | none => none)
                   | none => none)
              | none => none
            else none
          voice_duration :=
            if messageType = MsgType.voice then
              match content.audioMessage with
              | some au =>
                  (match au.seconds with
                   | some k => if k = 0 then none else some k
                   | none => none)
              | none => none
            else none }
      let bodyText := extractMessageText (some content)
      let messageBody :=
        if messageType = MsgType.voice then "🎤 Nota de voz"
        else if messageType = MsgType.sticker then "🎨 Sticker"
        else if messageType = MsgType.media then
          (let label :=
            match baileysType with
            | some "image" => "📷 Imagen"
            | some "video" => "🎥 Video"
            | some "audio" => "🎵 Audio"
            | some "document" => "📄 Documento"
            | _ => "📎 Archivo multimedia"
           if bodyText = "" then label else label ++ ": " ++ bodyText)
        else bodyText
      some
        { agent_id := agentId
          origin := conversationTarget
          dest := if fromMe then some remoteJid else selfJid
          participant := participant
          body := messageBody
          timestamp := msg.messageTimestamp
          has_media := isMediaClass messageType
          contact_name := contactName
          is_group := isGroup
          sender_name := senderName
          from_me := fromMe
          message_type := messageType
          message_metadata := meta }

/-- The values of the `clientStates` map: `'connecting' | 'open' | 'close'`
(server.js line 41).  `open` and `close` are reserved in Lean, hence the
`conn` prefixes. -/
inductive ConnState
  | connecting | connOpen | connClose
deriving DecidableEq

/-- A `clients` map entry `{ sock, store, saveCreds }`, restricted to the
data the modelled paths read: `sock.user?.id` (empty when absent). -/
structure ClientData where
  userId : String := ""
deriving DecidableEq

/-- The process-wide mutable state of server.js: the five per-agent maps
(lines 38-42) and, for each agent, whether an auth-credential directory
exists on disk under `auth_sessions/` (`true` = the blob is present). -/
structure ServerState where
  clients : List (String × ClientData)
  qrCodes : String → Option String
  qrTimeouts : String → Bool
  clientStates : String → Option ConnState
  reconnectAttempts : String → Option Nat
  auth : String → Bool

/-- Point update of a string-keyed map modelled as a function. -/
def upd {α : Type} (f : String → α) (k : String) (v : α) : String → α :=
  fun x => if x = k then v else f x

/-- JS `clients.delete(a)` on the ordered entry list. -/
def eraseClient (l : List (String × ClientData)) (a : String) : List (String × ClientData) :=
  l.filter (fun p => p.1 != a)

/-- JS `clients.set(a, d)`.  (A JS Map keeps the original position of an
existing key; only membership and cardinality matter to the program, so the
entry is moved to the front.) -/
def setClient (l : List (String × ClientData)) (a : String) (d : ClientData) :
    List (String × ClientData) :=
  (a, d) :: eraseClient l a

/-- The state with no clients, no pending QR codes or timers, and no
credentials on disk: the state at process start. -/
def emptyState : ServerState :=
  { clients := []
    qrCodes := fun _ => none
    qrTimeouts := fun _ => false
    clientStates := fun _ => none
    reconnectAttempts := fun _ => none
    auth := fun _ => false }

/-- `countConnectedClients` (server.js lines 671-679): the number of
`clients` entries whose `clientStates` value is `'open'`. -/
def countConnectedClients (s : ServerState) : Nat :=
  (s.clients.filter (fun p => s.clientStates p.1 == some ConnState.connOpen)).length

/-- `destroyClient` (server.js lines 128-168): clears the QR timeout,
best-effort logs the socket out (external side effect), deletes the
on-disk auth directory, and removes the `clients`, `qrCodes` and
`clientStates` entries.  Note that the source never removes the
`reconnectAttempts` entry here. -/
def destroyClient (s : ServerState) (a : String) : ServerState :=
  { clients := eraseClient s.clients a
    qrCodes := upd s.qrCodes a none
    qrTimeouts := upd s.qrTimeouts a false
    clientStates := upd s.clientStates a none
    reconnectAttempts := s.reconnectAttempts
    auth := upd s.auth a false }

/-- The state of the promise returned by `initializeClient`, guarded by the
`qrResolved` flag (server.js line 236): still pending, resolved by the
first successfully rendered QR, resolved by a connection-open (carrying
`sock.user?.id`), rejected by a QR render error, or rejected by a close. -/
inductive PromiseSt
  | pending
  | resolvedQR
  | resolvedOpen (userId : String)
  | rejectedQRErr
  | rejectedClose (statusCode : Option Nat)
deriving DecidableEq

/-- The asynchronous callbacks delivered for one agent: a `connection.update`
with a QR (plus whether `QRCode.toDataURL` succeeded), with
`connection === 'open'`, or with `connection === 'close'` (carrying the
computed status code, absent when the error has none); the completion of a
scheduled reconnection (`initializeClient(agentId, true)` settling, with
the fresh client data on success); and a `creds.update` persisting the
credential blob via `saveCreds` (server.js line 375). -/
inductive WAEvent
  | qr (code : String) (renderOk : Bool)
  | connOpened (userId : String)
  | connClosed (statusCode : Option Nat)
  | reconnectDone (ok : Bool) (d : ClientData)
  | credsUpdate
deriving DecidableEq

/-- The reconnect delay `Math.min(attempts * 2000, 10000)` (server.js
line 329), in milliseconds. -/
def reconnectDelay (attempts : Nat) : Nat :=
  min (attempts * 2000) 10000

/-- The rendered QR image produced by the external `QRCode.toDataURL`
collaborator: a base64 PNG data URL, in particular never empty. -/
def qrToDataURL (code : String) : String :=
  "data:image/png;base64," ++ code

/-- One step of the per-agent event handlers of `initializeClient`
(server.js lines 239-372 and 333-339), as a function of the global state
and the promise state.  The third component of the result is the delay of
a reconnection scheduled by this step (`none` when no reconnection is
scheduled).  The inner `await initializeClient(agentId, true)` of the
recoverable-close branch settles later; its effect on the maps is the
separate `reconnectDone` event, and the trailing
`if (!qrResolved) reject(...)` of the close handler is applied in the
close step (nothing reads the promise in between). -/
def stepEvent (a : String) (s : ServerState) (ps : PromiseSt) :
    WAEvent → ServerState × PromiseSt × Option Nat
  | .qr code renderOk =>
    if renderOk then
      -- qrCodes.set, clearQrTimeout, arm a fresh QR timeout, resolve once.
      ({ s with qrCodes := upd s.qrCodes a (some (qrToDataURL code))
                qrTimeouts := upd s.qrTimeouts a true },
       (if ps = PromiseSt.pending then PromiseSt.resolvedQR else ps), none)
    else
      -- QRCode.toDataURL threw: no map changes, reject once.
      (s, (if ps = PromiseSt.pending then PromiseSt.rejectedQRErr else ps), none)
  | .connOpened uid =>
    -- clearQrTimeout, state 'open', reset reconnect counter, webhook notify
    -- (external, best-effort), drop the QR, resolve once.
    ({ s with qrTimeouts := upd s.qrTimeouts a false
              clientStates := upd s.clientStates a (some ConnState.connOpen)
              reconnectAttempts := upd s.reconnectAttempts a none
              qrCodes := upd s.qrCodes a none },
     (if ps = PromiseSt.pending then PromiseSt.resolvedOpen uid else ps), none)
  | .connClosed sc =>
    let s1 := { s with clientStates := upd s.clientStates a (some ConnState.connClose) }
    if sc ≠ some DisconnectReason_loggedOut then
      -- shouldReconnect: increment the per-agent attempt counter.
      let attempts := (s1.reconnectAttempts a).getD 0 + 1
      let s2 := { s1 with reconnectAttempts := upd s1.reconnectAttempts a (some attempts) }
      if attempts ≤ MAX_RECONNECT_ATTEMPTS then
        (s2, (if ps = PromiseSt.pending then PromiseSt.rejectedClose sc else ps),
         some (reconnectDelay attempts))
      else
        -- Max attempts exceeded: remove counter, client, QR and state
        -- entries; the auth directory is NOT deleted, and the source does
        -- not clear a pending QR timeout here.
        ({ s2 with reconnectAttempts := upd s2.reconnectAttempts a none
                   clients := eraseClient s2.clients a
                   qrCodes := upd s2.qrCodes a none
                   clientStates := upd s2.clientStates a none },
         (if ps = PromiseSt.pending then PromiseSt.rejectedClose sc else ps), none)
    else
      -- Logged out by the user: clear the QR timeout, remove every map
      -- entry and delete the on-disk auth directory.
      ({ s1 with qrTimeouts := upd s1.qrTimeouts a false
                 clients := eraseClient s1.clients a
                 qrCodes := upd s1.qrCodes a none
                 clientStates := upd s1.clientStates a none
                 reconnectAttempts := upd s1.reconnectAttempts a none
                 auth := upd s1.auth a false },
       (if ps = PromiseSt.pending then PromiseSt.rejectedClose sc else ps), none)
  | .reconnectDone ok d =>
    if ok then
      ({ s with clients := setClient s.clients a d }, ps, none)
    else
      -- Reconnect failed (server.js lines 335-339).
      ({ s with clients := eraseClient s.clients a
                clientStates := upd s.clientStates a none }, ps, none)
  | .credsUpdate =>
    ({ s with auth := upd s.auth a true }, ps, none)

/-- Process a whole event list for one agent, threading the global state
and the promise state (the reconnection-scheduling outputs are dropped). -/
def runEvents (a : String) : ServerState → PromiseSt → List WAEvent → ServerState × PromiseSt
  | s, ps, [] => (s, ps)
  | s, ps, e :: es =>
      runEvents a (stepEvent a s ps e).1 (stepEvent a s ps e).2.1 es

/-- Process events until the `initializeClient` promise settles: the
`await` of the caller resumes at the first settling event. -/
def runUntilSettled (a : String) : ServerState → PromiseSt → List WAEvent → ServerState × PromiseSt
  | s, ps, [] => (s, ps)
  | s, ps, e :: es =>
      if ps = PromiseSt.pending then
        runUntilSettled a (stepEvent a s ps e).1 (stepEvent a s ps e).2.1 es
      else (s, ps)

/-- The auth-directory preparation at the top of `initializeClient`
(server.js lines 185-192): on a fresh (non-reconnect) call for an agent
with no `clients` entry, the stored credential directory is deleted. -/
def initAuthPrep (a : String) (isReconnect : Bool) (s : ServerState) : ServerState :=
  if !isReconnect && (s.clients.lookup a).isNone then
    { s with auth := upd s.auth a false }
  else s

/-- `initializeClient(agentId, isReconnect)` (server.js lines 180-555):
auth preparation, then the socket connects and its events drive the state
until the returned promise settles.  The transport is external: `evf`
maps the credential presence at connect time to the event list the
transport delivers. -/
def initializeClientModel (a : String) (isReconnect : Bool)
    (evf : Bool → List WAEvent) (s : ServerState) : ServerState × PromiseSt :=
  let s1 := initAuthPrep a isReconnect s
  runUntilSettled a s1 PromiseSt.pending (evf (s1.auth a))

/-- Modelled from the spec: the external transport collaborator (the wire
protocol is out of repository scope).  Per spec section 4.1, a connect
with valid stored credentials goes straight to a connection-opened event,
and a connect with no stored credentials produces a pairing code. -/
def transportEvents (uid code : String) (hasCreds : Bool) : List WAEvent :=
  if hasCreds then [WAEvent.connOpened uid] else [WAEvent.qr code true]

/-- The admission decision taken at the top of `POST /init` (server.js
lines 594-626): an existing client in state `'open'` short-circuits to an
already-connected reply; otherwise the request is rejected for capacity
exactly when the open-session count has reached the limit AND the agent
owns no client record; otherwise it is admitted. -/
inductive AdmissionDecision
  | alreadyConnected | capacityReject | proceed
deriving DecidableEq

/-- See `AdmissionDecision`. -/
def initAdmission (s : ServerState) (a : String) : AdmissionDecision :=
  match s.clients.lookup a with
  | some _ =>
      if s.clientStates a = some ConnState.connOpen then AdmissionDecision.alreadyConnected
      else AdmissionDecision.proceed
  | none =>
      if MAX_CONCURRENT_SESSIONS ≤ countConnectedClients s then
        AdmissionDecision.capacityReject
      else AdmissionDecision.proceed

/-- The JSON replies of `POST /init`: already connected (HTTP 200),
capacity rejection (HTTP 503, carrying the active count), a QR reply with
the timeout in seconds (HTTP 200), the restored-from-credentials reply
(HTTP 200), or the error reply (HTTP 500). -/
inductive InitResponse
  | alreadyConnected (phone : String)
  | capacity (active : Nat)
  | qrResp (qr : String) (timeoutSeconds : Nat)
  | connectedResp (phone : String)
  | err500
deriving DecidableEq

/-- The continuation of `POST /init` after `await initializeClient`
resolves (server.js lines 632-658): register the client, set the state to
`'connecting'`, then reply with the stored QR; with no QR the
`'open'`-state check runs (it can never succeed, since the state was just
overwritten with `'connecting'`) and the handler throws, destroying the
client and replying 500.  `uid` is `sock.user?.id` (empty when absent). -/
def runInitAfter (a : String) (uid : String) (s : ServerState) :
    ServerState × Option InitResponse :=
  let s3 : ServerState :=
    { s with clients := setClient s.clients a { userId := uid }
             clientStates := upd s.clientStates a (some ConnState.connecting) }
  match s3.qrCodes a with
  | some q => (s3, some (InitResponse.qrResp q (QR_TIMEOUT_MS / 1000)))
  | none =>
      if s3.clientStates a = some ConnState.connOpen then
        (s3, some (InitResponse.connectedResp (jidToPhone uid)))
      else (destroyClient s3 a, some InitResponse.err500)

/-- `POST /init` (server.js lines 584-668): admission, teardown of an
existing non-open client, a fresh `initializeClient` call (never a
reconnect), and the reply.  The result response is `none` when the
awaited promise never settles (the handler never replies). -/
def runInit (a : String) (evf : Bool → List WAEvent) (s : ServerState) :
    ServerState × Option InitResponse :=
  match initAdmission s a with
  | AdmissionDecision.alreadyConnected =>
      (s, some (InitResponse.alreadyConnected
        (jidToPhone (((s.clients.lookup a).map ClientData.userId).getD ""))))
  | AdmissionDecision.capacityReject =>
      (s, some (InitResponse.capacity (countConnectedClients s)))
  | AdmissionDecision.proceed =>
      let s1 := if (s.clients.lookup a).isSome then destroyClient s a else s
      let r := initializeClientModel a false evf s1
      match r.2 with
      | PromiseSt.pending => (r.1, none)
      | PromiseSt.rejectedQRErr => (destroyClient r.1 a, some InitResponse.err500)
      | PromiseSt.rejectedClose _ => (destroyClient r.1 a, some InitResponse.err500)
      | PromiseSt.resolvedQR => runInitAfter a "" r.1
      | PromiseSt.resolvedOpen uid => runInitAfter a uid r.1

/-- The reply of `POST /disconnect/:agent_id`. -/
inductive DisconnectResponse
  | success
deriving DecidableEq

/-- `POST /disconnect/:agent_id` (server.js lines 820-832): always runs
`destroyClient` and replies success (every failure inside `destroyClient`
is caught and logged, so the 500 branch is unreachable). -/
def disconnectRoute (s : ServerState) (a : String) : ServerState × DisconnectResponse :=
  (destroyClient s a, DisconnectResponse.success)

/-- Five agents with sessions in state `'open'`: the admission limit is
saturated. -/
def demoFive : ServerState :=
  { clients := [("b1", {}), ("b2", {}), ("b3", {}), ("b4", {}), ("b5", {})]
    qrCodes := fun _ => none
    qrTimeouts := fun _ => false
    clientStates := fun _ => some ConnState.connOpen
    reconnectAttempts := fun _ => none
    auth := fun _ => false }

/-- One agent with a registered client at the reconnect-attempt ceiling,
holding a pending QR timeout and stored credentials. -/
def atRetryLimit : ServerState :=
  { clients := [("acct1", {})]
    qrCodes := fun x => if x = "acct1" then some ("qr-image") else none
    qrTimeouts := fun x => x == "acct1"
    clientStates := fun x => if x = "acct1" then some ConnState.connClose else none
    reconnectAttempts := fun x => if x = "acct1" then some 5 else none
    auth := fun x => x == "acct1" }

/-- Stored credentials on disk for `acct1`, but no client record at all. -/
def storedCredsState : ServerState :=
  { emptyState with auth := fun x => x == "acct1" }

/-- Stored credentials on disk for `ghost`, no registered client. -/
def lingeringCreds : ServerState :=
  { emptyState with auth := fun x => x == "ghost" }

/-- A contacts store with no entries. -/
def demoStore : WAStore := { contacts := fun _ => none }

/-- An image message content with a caption and mime type. -/
def demoImageContent : WAMsgContent :=
  WAMsgContent.mk none none
    (some { caption := some ("hola"), mimetype := some ("image/jpeg") })
    none none none none

/-- An inbound (not self-sent) image message. -/
def demoImageMsg : InboundMsg :=
  { key := { fromMe := false, remoteJid := some ("5215550001@s.whatsapp.net"), id := "MSG1" }
    message := some demoImageContent
    pushName := some ("Ana")
    messageTimestamp := 1700000000 }

/-- A quoted message whose extracted text is 150 characters long. -/
def demoQuotedContent : WAMsgContent :=
  WAMsgContent.mk (some (String.mk (List.replicate 150 ('x')))) none none none none none none

/-- A reply message quoting `demoQuotedContent`. -/
def demoReplyContent : WAMsgContent :=
  WAMsgContent.mk none
    (some (WAExtendedText.mk (some ("ok!"))
      (some (WAContextInfo.mk (some demoQuotedContent) (some ("ST1"))
        (some ("555@s.whatsapp.net"))))))
    none none none none none

/-- An inbound reply message. -/
def demoReplyMsg : InboundMsg :=
  { key := { fromMe := false, remoteJid := some ("123@s.whatsapp.net"), id := "MSG2" }
    message := some demoReplyContent
    messageTimestamp := 1700000001 }

/-!  Helper lemmas about the map operations. -/

theorem upd_self {α : Type} (f : String → α) (a : String) (v : α) : upd f a v a = v := by
  simp [upd]

theorem upd_upd_same {α : Type} (f : String → α) (a : String) (v w : α) :
    upd (upd f a v) a w = upd f a w := by
  funext x
  by_cases h : x = a <;> simp [upd, h]

theorem lookup_eraseClient (l : List (String × ClientData)) (a : String) :
    (eraseClient l a).lookup a = none := by
  simp only [eraseClient]
  induction l with
  | nil => rfl
  | cons p l ih =>
      rcases p with ⟨k, d⟩
      by_cases h : k = a
      · have hf : ((k, d).1 != a) = false := by simp [h]
        simp [List.filter_cons, hf, ih]
      · have ht : ((k, d).1 != a) = true := by simp [h]
        have h2 : (a == k) = false := by
          simp only [beq_eq_false_iff_ne, ne_eq]
          exact fun hh => h hh.symm
        simp [List.filter_cons, ht, List.lookup, h2, ih]

theorem eraseClient_eraseClient (l : List (String × ClientData)) (a : String) :
    eraseClient (eraseClient l a) a = eraseClient l a := by
  simp [eraseClient, List.filter_filter]

theorem lookup_setClient (l : List (String × ClientData)) (a : String) (d : ClientData) :
    (setClient l a d).lookup a = some d := by
  simp [setClient, List.lookup]

/-- A settled promise is never touched again by any later event:
the `qrResolved` guard protects every `resolve`/`reject`. -/
theorem stepEvent_settled (a : String) (s : ServerState) (ps : PromiseSt) (e : WAEvent)
    (h : ps ≠ PromiseSt.pending) : (stepEvent a s ps e).2.1 = ps := by
  cases e with
  | qr code renderOk => cases renderOk <;> simp [stepEvent, h]
  | connOpened uid => simp [stepEvent, h]
  | connClosed sc =>
      simp only [stepEvent]
      split
      · split <;> simp [h]
      · simp [h]
  | reconnectDone ok d => cases ok <;> simp [stepEvent]
  | credsUpdate => simp [stepEvent]

theorem runEvents_settled (a : String) (es : List WAEvent) :
    ∀ (s : ServerState) (ps : PromiseSt), ps ≠ PromiseSt.pending →
      (runEvents a s ps es).2 = ps := by
  induction es with
  | nil => intro s ps _; rfl
  | cons e es ih =>
      intro s ps h
      have hstep := stepEvent_settled a s ps e h
      simp only [runEvents, hstep]
      exact ih _ ps h

/-- C1 (confirmed): admission control on init.  When the count of
open-state clients has reached `MAX_CONCURRENT_SESSIONS` and the agent
owns no client record, the init request is answered with the capacity
error and the state is returned unchanged (no session is created,
whatever the transport would deliver); a request arriving while the open
count is below the limit is never rejected for capacity; and an agent
that already owns a client record is never rejected for capacity. -/
theorem c1_admission_control :
    (∀ (s : ServerState) (a : String),
        MAX_CONCURRENT_SESSIONS ≤ countConnectedClients s →
        s.clients.lookup a = none →
        initAdmission s a = AdmissionDecision.capacityReject ∧
        ∀ evf, runInit a evf s = (s, some (InitResponse.capacity (countConnectedClients s))))
    ∧ (∀ (s : ServerState) (a : String),
        countConnectedClients s < MAX_CONCURRENT_SESSIONS →
        initAdmission s a ≠ AdmissionDecision.capacityReject)
    ∧ (∀ (s : ServerState) (a : String) (d : ClientData),
        s.clients.lookup a = some d →
        initAdmission s a ≠ AdmissionDecision.capacityReject) := by
  refine ⟨?_, ?_, ?_⟩
  · intro s a hfull hnone
    have hadm : initAdmission s a = AdmissionDecision.capacityReject := by
      simp [initAdmission, hnone, hfull]
    refine ⟨hadm, ?_⟩
    intro evf
    simp [runInit, hadm]
  · intro s a hlt
    have hn : ¬ MAX_CONCURRENT_SESSIONS ≤ countConnectedClients s := by omega
    cases h : s.clients.lookup a with
    | some d =>
        simp only [initAdmission, h]
        split <;> simp
    | none => simp [initAdmission, h, hn]
  · intro s a d h
    simp only [initAdmission, h]
    split <;> simp

/-- C1 witness: with five open sessions, a sixth fresh agent is rejected
with the capacity error and no state change, while one of the five open
agents is not capacity-rejected. -/
theorem c1_admission_control_witness :
    initAdmission demoFive ("f6") = AdmissionDecision.capacityReject
    ∧ runInit ("f6") (transportEvents ("") ("")) demoFive =
        (demoFive, some (InitResponse.capacity (countConnectedClients demoFive)))
    ∧ initAdmission demoFive ("b1") ≠ AdmissionDecision.capacityReject := by
  refine ⟨?_, ?_, ?_⟩
  · exact (c1_admission_control.1 demoFive ("f6") (by decide) (by decide)).1
  · exact (c1_admission_control.1 demoFive ("f6") (by decide) (by decide)).2
      (transportEvents ("") (""))
  · exact c1_admission_control.2.2 demoFive ("b1") {} (by decide)

/-- C7 (confirmed): the reconnect backoff delay is monotonically
non-decreasing in the attempt number, never exceeds 10000 ms, and equals
`min (n * 2000) 10000`; a recoverable close within the attempt ceiling
schedules a reconnection after exactly this delay while leaving the
on-disk credentials unchanged, and the scheduled re-initialization
(`isReconnect = true`) never wipes the credential directory. -/
theorem c7_backoff :
    (∀ n m : Nat, n ≤ m → reconnectDelay n ≤ reconnectDelay m)
    ∧ (∀ n : Nat, reconnectDelay n ≤ 10000)
    ∧ (∀ n : Nat, reconnectDelay n = min (n * 2000) 10000)
    ∧ (∀ (s : ServerState) (ps : PromiseSt) (a : String) (sc : Option Nat),
        sc ≠ some DisconnectReason_loggedOut →
        (s.reconnectAttempts a).getD 0 + 1 ≤ MAX_RECONNECT_ATTEMPTS →
        (stepEvent a s ps (WAEvent.connClosed sc)).2.2 =
          some (reconnectDelay ((s.reconnectAttempts a).getD 0 + 1))
        ∧ (stepEvent a s ps (WAEvent.connClosed sc)).1.auth = s.auth)
    ∧ (∀ (s : ServerState) (a : String), initAuthPrep a true s = s) := by
  refine ⟨?_, ?_, ?_, ?_, ?_⟩
  · intro n m h
    simp only [reconnectDelay, Nat.min_def]
    split <;> split <;> omega
  · intro n
    simp only [reconnectDelay, Nat.min_def]
    split <;> omega
  · intro n
    rfl
  · intro s ps a sc hsc hle
    simp [stepEvent, hsc, hle]
  · intro s a
    rfl

/-- C7 witness at concrete inputs. -/
theorem c7_backoff_witness :
    reconnectDelay 2 ≤ reconnectDelay 4
    ∧ reconnectDelay 99 ≤ 10000
    ∧ (stepEvent ("a") emptyState PromiseSt.pending (WAEvent.connClosed (some 515))).2.2 =
        some (reconnectDelay ((emptyState.reconnectAttempts ("a")).getD 0 + 1)) := by
  refine ⟨c7_backoff.1 2 4 (by decide), c7_backoff.2.1 99, ?_⟩
  exact (c7_backoff.2.2.2.1 emptyState PromiseSt.pending ("a") (some 515)
    (by decide) (by decide)).1

/-- C9 counterexample: the claim says a disconnect on an account with no
registered client performs no state change; but on an account with no
client record and a stored credential blob, the disconnect route deletes
the blob (and still reports success), a visible state change. -/
theorem c9_counterexample :
    lingeringCreds.clients.lookup ("ghost") = none
    ∧ lingeringCreds.auth ("ghost") = true
    ∧ (disconnectRoute lingeringCreds ("ghost")).2 = DisconnectResponse.success
    ∧ (disconnectRoute lingeringCreds ("ghost")).1.auth ("ghost") = false := by
  decide

/-- C9 (amended): disconnect always reports success and ends with the
client, QR, state and timer entries for the account removed and the
stored credentials deleted; a second disconnect is a no-op (the end state
is literally the same).  It is not a strict no-op on an unknown account
(residual records and stored credentials are still removed), and the
reconnect-attempts map is never touched by disconnect. -/
theorem c9_disconnect_amended :
    (∀ (s : ServerState) (a : String),
        disconnectRoute s a = (destroyClient s a, DisconnectResponse.success))
    ∧ (∀ (s : ServerState) (a : String),
        destroyClient (destroyClient s a) a = destroyClient s a)
    ∧ (∀ (s : ServerState) (a : String),
        (destroyClient s a).clients.lookup a = none
        ∧ (destroyClient s a).qrCodes a = none
        ∧ (destroyClient s a).clientStates a = none
        ∧ (destroyClient s a).qrTimeouts a = false
        ∧ (destroyClient s a).auth a = false)
    ∧ (∀ (s : ServerState) (a : String),
        (destroyClient s a).reconnectAttempts = s.reconnectAttempts) := by
  refine ⟨?_, ?_, ?_, ?_⟩
  · intro s a
    rfl
  · intro s a
    simp [destroyClient, upd_upd_same, eraseClient_eraseClient]
  · intro s a
    exact ⟨lookup_eraseClient _ _, upd_self _ _ _, upd_self _ _ _,
      upd_self _ _ _, upd_self _ _ _⟩
  · intro s a
    rfl

/-- C2 counterexample: the claim says that a recoverable close pushing the
counter past the threshold removes ALL in-memory records for the account;
in the state `atRetryLimit` (counter at the ceiling, QR timeout pending) a
recoverable close (status 428) removes the client, counter, QR and state
entries and schedules no reconnect, but the pending QR-timeout entry
survives (the source's max-attempts branch never calls `clearQrTimeout`). -/
theorem c2_counterexample :
    (stepEvent ("acct1") atRetryLimit PromiseSt.pending
        (WAEvent.connClosed (some 428))).1.clients.lookup ("acct1") = none
    ∧ (stepEvent ("acct1") atRetryLimit PromiseSt.pending
        (WAEvent.connClosed (some 428))).1.reconnectAttempts ("acct1") = none
    ∧ (stepEvent ("acct1") atRetryLimit PromiseSt.pending
        (WAEvent.connClosed (some 428))).2.2 = none
    ∧ (stepEvent ("acct1") atRetryLimit PromiseSt.pending
        (WAEvent.connClosed (some 428))).1.auth ("acct1") = true
    ∧ (stepEvent ("acct1") atRetryLimit PromiseSt.pending
        (WAEvent.connClosed (some 428))).1.qrTimeouts ("acct1") = true := by
  decide

/-- C2 (amended): the reconnect counter never exceeds
`MAX_RECONNECT_ATTEMPTS` after any event step (given it did not before),
and a recoverable close that would push it past the threshold triggers
terminal teardown — the client, QR, state and counter entries are removed,
no reconnect is scheduled, and the on-disk credential blob is untouched —
except that a pending QR-timeout entry is NOT removed on this path. -/
theorem c2_reconnect_counter_amended :
    (∀ (s : ServerState) (ps : PromiseSt) (a : String) (e : WAEvent),
        (∀ b n, s.reconnectAttempts b = some n → n ≤ MAX_RECONNECT_ATTEMPTS) →
        ∀ b n, (stepEvent a s ps e).1.reconnectAttempts b = some n →
          n ≤ MAX_RECONNECT_ATTEMPTS)
    ∧ (∀ (s : ServerState) (ps : PromiseSt) (a : String) (sc : Option Nat),
        sc ≠ some DisconnectReason_loggedOut →
        MAX_RECONNECT_ATTEMPTS ≤ (s.reconnectAttempts a).getD 0 →
        (stepEvent a s ps (WAEvent.connClosed sc)).1.clients.lookup a = none
        ∧ (stepEvent a s ps (WAEvent.connClosed sc)).1.qrCodes a = none
        ∧ (stepEvent a s ps (WAEvent.connClosed sc)).1.clientStates a = none
        ∧ (stepEvent a s ps (WAEvent.connClosed sc)).1.reconnectAttempts a = none
        ∧ (stepEvent a s ps (WAEvent.connClosed sc)).2.2 = none
        ∧ (stepEvent a s ps (WAEvent.connClosed sc)).1.auth = s.auth
        ∧ (stepEvent a s ps (WAEvent.connClosed sc)).1.qrTimeouts = s.qrTimeouts) := by
  constructor
  · intro s ps a e hinv b n
    cases e with
    | qr code renderOk =>
        cases renderOk <;> simp [stepEvent] <;> exact hinv b n
    | connOpened uid =>
        by_cases hba : b = a <;> simp [stepEvent, upd, hba]
        exact hinv b n
    | connClosed sc =>
        by_cases hsc : sc ≠ some DisconnectReason_loggedOut
        · by_cases hle : (s.reconnectAttempts a).getD 0 + 1 ≤ MAX_RECONNECT_ATTEMPTS
          · by_cases hba : b = a
            · simp [stepEvent, hsc, hle, upd, hba]
              omega
            · simp [stepEvent, hsc, hle, upd, hba]
              exact hinv b n
          · by_cases hba : b = a <;> simp [stepEvent, hsc, hle, upd, hba]
            exact hinv b n
        · simp only [ne_eq, not_not] at hsc
          by_cases hba : b = a <;> simp [stepEvent, hsc, upd, hba]
          exact hinv b n
    | reconnectDone ok d =>
        cases ok <;> simp [stepEvent] <;> exact hinv b n
    | credsUpdate =>
        simp [stepEvent]
        exact hinv b n
  · intro s ps a sc hsc hge
    have hgt : ¬ ((s.reconnectAttempts a).getD 0 + 1 ≤ MAX_RECONNECT_ATTEMPTS) := by
      omega
    simp [stepEvent, hsc, hgt, upd_self, upd_upd_same, lookup_eraseClient]

/-- C2 witness for the amended statement at concrete inputs. -/
theorem c2_reconnect_counter_amended_witness :
    (∀ b n, (stepEvent ("acct1") atRetryLimit PromiseSt.pending
        (WAEvent.connClosed (some 428))).1.reconnectAttempts b = some n →
        n ≤ MAX_RECONNECT_ATTEMPTS)
    ∧ (stepEvent ("acct1") atRetryLimit PromiseSt.pending
        (WAEvent.connClosed (some 428))).1.reconnectAttempts ("acct1") = none := by
  constructor
  · refine c2_reconnect_counter_amended.1 atRetryLimit PromiseSt.pending ("acct1")
      (WAEvent.connClosed (some 428)) ?_
    intro b n h
    by_cases hb : b = "acct1"
    · subst hb
      simp [atRetryLimit, MAX_RECONNECT_ATTEMPTS] at h ⊢
      omega
    · simp [atRetryLimit, hb] at h
  · exact (c2_reconnect_counter_amended.2 atRetryLimit PromiseSt.pending ("acct1")
      (some 428) (by decide) (by decide)).2.2.2.1

/-- C3 (confirmed): a close is terminal exactly when its status code is the
transport's logged-out code.  On the logged-out code the client, QR, state
and counter entries are all removed, the QR timeout is cleared and the
stored credential blob is deleted; on every other status code (including an
absent one) the credentials are untouched and the recoverable reconnect
path runs: the counter is incremented, and within the ceiling a
reconnection is scheduled while past the ceiling the records are dropped
without touching the credentials. -/
theorem c3_close_classification :
    (∀ (s : ServerState) (ps : PromiseSt) (a : String),
        (stepEvent a s ps (WAEvent.connClosed (some DisconnectReason_loggedOut))).1.clients.lookup a = none
        ∧ (stepEvent a s ps (WAEvent.connClosed (some DisconnectReason_loggedOut))).1.qrCodes a = none
        ∧ (stepEvent a s ps (WAEvent.connClosed (some DisconnectReason_loggedOut))).1.clientStates a = none
        ∧ (stepEvent a s ps (WAEvent.connClosed (some DisconnectReason_loggedOut))).1.reconnectAttempts a = none
        ∧ (stepEvent a s ps (WAEvent.connClosed (some DisconnectReason_loggedOut))).1.qrTimeouts a = false
        ∧ (stepEvent a s ps (WAEvent.connClosed (some DisconnectReason_loggedOut))).1.auth a = false
        ∧ (stepEvent a s ps (WAEvent.connClosed (some DisconnectReason_loggedOut))).2.2 = none)
    ∧ (∀ (s : ServerState) (ps : PromiseSt) (a : String) (sc : Option Nat),
        sc ≠ some DisconnectReason_loggedOut →
        (stepEvent a s ps (WAEvent.connClosed sc)).1.auth = s.auth
        ∧ ((s.reconnectAttempts a).getD 0 + 1 ≤ MAX_RECONNECT_ATTEMPTS →
            (stepEvent a s ps (WAEvent.connClosed sc)).1.reconnectAttempts a =
              some ((s.reconnectAttempts a).getD 0 + 1)
            ∧ (stepEvent a s ps (WAEvent.connClosed sc)).2.2 =
              some (reconnectDelay ((s.reconnectAttempts a).getD 0 + 1)))
        ∧ (MAX_RECONNECT_ATTEMPTS < (s.reconnectAttempts a).getD 0 + 1 →
            (stepEvent a s ps (WAEvent.connClosed sc)).1.reconnectAttempts a = none
            ∧ (stepEvent a s ps (WAEvent.connClosed sc)).1.clients.lookup a = none)) := by
  constructor
  · intro s ps a
    simp [stepEvent, upd_self, upd_upd_same, lookup_eraseClient]
  · intro s ps a sc hsc
    refine ⟨?_, ?_, ?_⟩
    · by_cases hle : (s.reconnectAttempts a).getD 0 + 1 ≤ MAX_RECONNECT_ATTEMPTS <;>
        simp [stepEvent, hsc, hle]
    · intro hle
      simp [stepEvent, hsc, hle, upd_self]
    · intro hgt
      have hle : ¬ ((s.reconnectAttempts a).getD 0 + 1 ≤ MAX_RECONNECT_ATTEMPTS) := by omega
      simp [stepEvent, hsc, hle, upd_self, upd_upd_same, lookup_eraseClient]

/-- C3 witness at concrete inputs: a logged-out close on `atRetryLimit`
erases everything including the credentials; a 515 close on `emptyState`
preserves the credentials and schedules a retry. -/
theorem c3_close_classification_witness :
    (stepEvent ("acct1") atRetryLimit PromiseSt.pending
        (WAEvent.connClosed (some DisconnectReason_loggedOut))).1.auth ("acct1") = false
    ∧ (stepEvent ("a") emptyState PromiseSt.pending
        (WAEvent.connClosed (some 515))).1.auth = emptyState.auth := by
  constructor
  · exact (c3_close_classification.1 atRetryLimit PromiseSt.pending ("acct1")).2.2.2.2.2.1
  · exact (c3_close_classification.2 emptyState PromiseSt.pending ("a") (some 515)
      (by decide)).1

theorem qrToDataURL_ne_empty (code : String) : qrToDataURL code ≠ "" := by
  intro h
  have h2 := congrArg String.length h
  rw [qrToDataURL, String.length_append, String.length_empty] at h2
  have h3 : (0:Nat) < String.length ("data:image/png;base64,") := by decide
  omega

/-- C4 counterexample: an init on `acct1` holding valid stored credentials
and no live client record does NOT resume directly to Open: the fresh-init
path first deletes the stored credential directory (server.js lines
187-192), so the connect finds no credentials, a pairing artifact is
produced and returned with the pairing timeout, and the credentials are
gone afterwards — contradicting "no pairing artifact is produced and the
stored credentials are used for the resume". -/
theorem c4_counterexample :
    storedCredsState.auth ("acct1") = true
    ∧ storedCredsState.clients.lookup ("acct1") = none
    ∧ (runInit ("acct1") (transportEvents ("5215550001:7@s.whatsapp.net") ("pair-code"))
        storedCredsState).2 = some (InitResponse.qrResp (qrToDataURL ("pair-code")) 180)
    ∧ (runInit ("acct1") (transportEvents ("5215550001:7@s.whatsapp.net") ("pair-code"))
        storedCredsState).1.auth ("acct1") = false
    ∧ (runInit ("acct1") (transportEvents ("5215550001:7@s.whatsapp.net") ("pair-code"))
        storedCredsState).1.qrCodes ("acct1") = some (qrToDataURL ("pair-code")) := by
  decide

/-- C4 (amended): a fresh init on an account with no client record always
wipes the stored credentials before connecting, so an init request never
resumes from stored credentials; the direct Connecting-to-Open transition
without ever entering pairing belongs to the automatic reconnect path
(`isReconnect = true`), which preserves the credential directory: there,
with stored credentials present, the connect resolves the pending call
with the connected identity, no pairing artifact exists, the state reaches
Open and the credentials survive. -/
theorem c4_resume_amended :
    (∀ (s : ServerState) (a : String), s.clients.lookup a = none →
        (initAuthPrep a false s).auth a = false)
    ∧ (∀ (s : ServerState) (a : String), initAuthPrep a true s = s)
    ∧ (∀ (s : ServerState) (a uid code : String), s.auth a = true →
        (initializeClientModel a true (transportEvents uid code) s).2 =
          PromiseSt.resolvedOpen uid
        ∧ (initializeClientModel a true (transportEvents uid code) s).1.qrCodes a = none
        ∧ (initializeClientModel a true (transportEvents uid code) s).1.clientStates a =
            some ConnState.connOpen
        ∧ (initializeClientModel a true (transportEvents uid code) s).1.auth a = true) := by
  refine ⟨?_, ?_, ?_⟩
  · intro s a h
    simp [initAuthPrep, h, upd_self]
  · intro s a
    rfl
  · intro s a uid code h
    simp [initializeClientModel, initAuthPrep, transportEvents, h, runUntilSettled,
      stepEvent, upd_self]

/-- C4 witness for the amended statement at concrete inputs. -/
theorem c4_resume_amended_witness :
    (initAuthPrep ("acct1") false storedCredsState).auth ("acct1") = false
    ∧ (initializeClientModel ("acct1") true
        (transportEvents ("5215550001:7@s.whatsapp.net") ("pair-code")) storedCredsState).2 =
        PromiseSt.resolvedOpen ("5215550001:7@s.whatsapp.net") := by
  constructor
  · exact c4_resume_amended.1 storedCredsState ("acct1") (by decide)
  · exact (c4_resume_amended.2.2 storedCredsState ("acct1")
      ("5215550001:7@s.whatsapp.net") ("pair-code") (by decide)).1

/-- C5 (confirmed): an init on an account with no stored credentials
produces a QR reply whose artifact is non-empty, with a 180-second
timeout, and leaves the artifact and an armed QR timeout behind; when the
timer fires before any connection-opened event, its callback
(`destroyClient`, server.js lines 251-254) removes the client, QR, state
and timer entries (the account has no reconnect-counter entry in this
scenario) and leaves no credentials on disk. -/
theorem c5_pairing_expiry (a code : String) :
    (runInit a (transportEvents ("") code) emptyState).2 =
        some (InitResponse.qrResp (qrToDataURL code) 180)
    ∧ qrToDataURL code ≠ ""
    ∧ (runInit a (transportEvents ("") code) emptyState).1.qrCodes a = some (qrToDataURL code)
    ∧ (runInit a (transportEvents ("") code) emptyState).1.qrTimeouts a = true
    ∧ (destroyClient (runInit a (transportEvents ("") code) emptyState).1 a).clients.lookup a = none
    ∧ (destroyClient (runInit a (transportEvents ("") code) emptyState).1 a).qrCodes a = none
    ∧ (destroyClient (runInit a (transportEvents ("") code) emptyState).1 a).clientStates a = none
    ∧ (destroyClient (runInit a (transportEvents ("") code) emptyState).1 a).qrTimeouts a = false
    ∧ (destroyClient (runInit a (transportEvents ("") code) emptyState).1 a).reconnectAttempts a = none
    ∧ (destroyClient (runInit a (transportEvents ("") code) emptyState).1 a).auth a = false := by
  refine ⟨?_, qrToDataURL_ne_empty code, ?_, ?_, ?_, ?_, ?_, ?_, ?_, ?_⟩ <;>
    simp [runInit, initAdmission, countConnectedClients, emptyState, MAX_CONCURRENT_SESSIONS,
      initializeClientModel, initAuthPrep, runUntilSettled, stepEvent, transportEvents,
      runInitAfter, destroyClient, QR_TIMEOUT_MS, upd, setClient, eraseClient,
      List.lookup, List.filter]

/-- C6 (confirmed): single-fire init resolution.  Over any sequence of
events, a settled promise is never resolved or rejected again (so the
pending init call completes at most once); from the pending state the
first successfully rendered pairing-code event resolves the promise and
stores the artifact; a pairing-code event arriving once the promise is
settled refreshes the stored artifact without changing the settled
result. -/
theorem c6_single_fire :
    (∀ (a : String) (es : List WAEvent) (s : ServerState) (ps : PromiseSt),
        ps ≠ PromiseSt.pending → (runEvents a s ps es).2 = ps)
    ∧ (∀ (a code : String) (s : ServerState),
        (stepEvent a s PromiseSt.pending (WAEvent.qr code true)).2.1 = PromiseSt.resolvedQR
        ∧ (stepEvent a s PromiseSt.pending (WAEvent.qr code true)).1.qrCodes a =
            some (qrToDataURL code))
    ∧ (∀ (a code : String) (s : ServerState) (ps : PromiseSt), ps ≠ PromiseSt.pending →
        (stepEvent a s ps (WAEvent.qr code true)).2.1 = ps
        ∧ (stepEvent a s ps (WAEvent.qr code true)).1.qrCodes a = some (qrToDataURL code)) := by
  refine ⟨runEvents_settled, ?_, ?_⟩
  · intro a code s
    exact ⟨by simp [stepEvent], by simp [stepEvent, upd_self]⟩
  · intro a code s ps h
    exact ⟨by simp [stepEvent, h], by simp [stepEvent, upd_self]⟩

/-- C6 witness at concrete inputs: after the promise settled by a first QR,
a close and a second QR leave the result untouched while the second QR
refreshes the artifact. -/
theorem c6_single_fire_witness :
    (runEvents ("acct1") emptyState PromiseSt.resolvedQR
        [WAEvent.connClosed (some 515), WAEvent.qr ("code2") true]).2 = PromiseSt.resolvedQR
    ∧ (stepEvent ("acct1") emptyState PromiseSt.pending (WAEvent.qr ("code1") true)).2.1 =
        PromiseSt.resolvedQR
    ∧ (stepEvent ("acct1") emptyState PromiseSt.resolvedQR (WAEvent.qr ("code2") true)).1.qrCodes
        ("acct1") = some (qrToDataURL ("code2")) := by
  refine ⟨?_, ?_, ?_⟩
  · exact c6_single_fire.1 ("acct1") [WAEvent.connClosed (some 515), WAEvent.qr ("code2") true]
      emptyState PromiseSt.resolvedQR (by decide)
  · exact (c6_single_fire.2.1 ("acct1") ("code1") emptyState).1
  · exact (c6_single_fire.2.2 ("acct1") ("code2") emptyState PromiseSt.resolvedQR (by decide)).2

theorem jsSubstr_length_le (s : String) (n : Nat) : (jsSubstr s n).length ≤ n := by
  rw [jsSubstr, String.length_mk, List.length_take]
  exact Nat.min_le_left _ _

/-- C8 (confirmed): the media download/upload side channel runs only for
inbound (not self-sent) media-class messages — for every other message the
webhook payload does not depend on the media outcome at all; when the
download or upload fails, the payload is still relayed with the media
subtype set and the asset reference absent; on successful upload the
payload carries the media subtype, the populated asset reference and the
file name. -/
theorem c8_media_side_channel :
    (∀ (agentId : String) (selfJid : Option String) (store : WAStore) (now : Nat)
        (msg : InboundMsg) (o o' : MediaOutcome),
        (isMediaClass (detectMessageType msg.message).1 = false ∨ msg.key.fromMe = true) →
        processMessage agentId selfJid store now msg o =
          processMessage agentId selfJid store now msg o')
    ∧ (∀ (agentId : String) (selfJid : Option String) (store : WAStore) (now : Nat)
        (msg : InboundMsg) (o : MediaOutcome) (r : String) (c : WAMsgContent),
        msg.key.remoteJid = some r → r ≠ "status@broadcast" → msg.message = some c →
        isMediaClass (detectMessageType (some c)).1 = true → msg.key.fromMe = false →
        o ≠ MediaOutcome.uploadOk →
        ∃ p, processMessage agentId selfJid store now msg o = some p
          ∧ p.message_metadata.media_url = none
          ∧ p.message_metadata.media_filename = none
          ∧ p.message_metadata.media_type = (detectMessageType (some c)).2
          ∧ p.has_media = true)
    ∧ (∀ (agentId : String) (selfJid : Option String) (store : WAStore) (now : Nat)
        (msg : InboundMsg) (r : String) (c : WAMsgContent),
        msg.key.remoteJid = some r → r ≠ "status@broadcast" → msg.message = some c →
        isMediaClass (detectMessageType (some c)).1 = true → msg.key.fromMe = false →
        ∃ p, processMessage agentId selfJid store now msg MediaOutcome.uploadOk = some p
          ∧ p.message_metadata.media_url = some (mediaUrlFor msg.key.id now c)
          ∧ p.message_metadata.media_filename = some (mediaFileNameFor msg.key.id now c)
          ∧ p.message_metadata.media_type = (detectMessageType (some c)).2
          ∧ p.has_media = true) := by
  refine ⟨?_, ?_, ?_⟩
  · intro agentId selfJid store now msg o o' h
    cases hrj : msg.key.remoteJid with
    | none => simp [processMessage, hrj]
    | some r =>
        by_cases hb : r = "status@broadcast"
        · simp [processMessage, hrj, hb]
        · cases hm : msg.message with
          | none => simp [processMessage, hrj, hb, hm]
          | some c =>
              have hcond :
                  (isMediaClass (detectMessageType (some c)).1 && !msg.key.fromMe) = false := by
                rcases h with h | h
                · rw [hm] at h
                  simp [h]
                · simp [h]
              simp [processMessage, hrj, hb, hm, hcond]
  · intro agentId selfJid store now msg o r c hrj hb hm hclass hfm ho
    cases o with
    | uploadOk => exact absurd rfl ho
    | noBuffer =>
        simp only [processMessage, hrj, hm, if_neg hb, hclass, hfm]
        refine ⟨_, rfl, ?_, ?_, ?_, ?_⟩ <;> simp [hclass]
    | uploadFailed =>
        simp only [processMessage, hrj, hm, if_neg hb, hclass, hfm]
        refine ⟨_, rfl, ?_, ?_, ?_, ?_⟩ <;> simp [hclass]
  · intro agentId selfJid store now msg r c hrj hb hm hclass hfm
    simp only [processMessage, hrj, hm, if_neg hb, hclass, hfm]
    refine ⟨_, rfl, ?_, ?_, ?_, ?_⟩ <;> simp [hclass]

/-- C8 witness: an inbound image message, relayed both on upload failure
(no asset reference) and on success (populated asset reference). -/
theorem c8_media_side_channel_witness :
    (∃ p, processMessage ("agent1") (some ("999@s.whatsapp.net")) demoStore 42
        demoImageMsg MediaOutcome.uploadFailed = some p
        ∧ p.message_metadata.media_url = none
        ∧ p.message_metadata.media_filename = none
        ∧ p.message_metadata.media_type = (detectMessageType (some demoImageContent)).2
        ∧ p.has_media = true)
    ∧ (∃ p, processMessage ("agent1") (some ("999@s.whatsapp.net")) demoStore 42
        demoImageMsg MediaOutcome.uploadOk = some p
        ∧ p.message_metadata.media_url = some (mediaUrlFor demoImageMsg.key.id 42 demoImageContent)
        ∧ p.message_metadata.media_filename =
            some (mediaFileNameFor demoImageMsg.key.id 42 demoImageContent)
        ∧ p.message_metadata.media_type = (detectMessageType (some demoImageContent)).2
        ∧ p.has_media = true) := by
  constructor
  · exact c8_media_side_channel.2.1 ("agent1") (some ("999@s.whatsapp.net")) demoStore 42
      demoImageMsg MediaOutcome.uploadFailed ("5215550001@s.whatsapp.net") demoImageContent
      rfl (by decide) rfl rfl rfl (by decide)
  · exact c8_media_side_channel.2.2 ("agent1") (some ("999@s.whatsapp.net")) demoStore 42
      demoImageMsg ("5215550001@s.whatsapp.net") demoImageContent
      rfl (by decide) rfl rfl rfl

/-- C10 (confirmed): for every relayed reply message, the quoted-message
excerpt in the normalized record is the extracted text of the quoted
message truncated to the first 100 characters (hence of length at most
100), and its originating party is the quote's participant when that is
present and non-empty, else the conversation identity. -/
theorem c10_quoted_excerpt :
    ∀ (agentId : String) (selfJid : Option String) (store : WAStore) (now : Nat)
      (msg : InboundMsg) (o : MediaOutcome) (r : String) (c : WAMsgContent)
      (et : WAExtendedText) (ci : WAContextInfo) (qm : WAMsgContent),
      msg.key.remoteJid = some r → r ≠ "status@broadcast" → msg.message = some c →
      (detectMessageType (some c)).1 = MsgType.reply →
      c.extendedTextMessage = some et → et.contextInfo = some ci →
      ci.quotedMessage = some qm →
      ∃ p, processMessage agentId selfJid store now msg o = some p
        ∧ p.message_metadata.quoted_message =
            some { id := ci.stanzaId
                   body := jsSubstr (extractMessageText (some qm)) 100
                   sender := jsOr ci.participant r }
        ∧ (jsSubstr (extractMessageText (some qm)) 100).length ≤ 100
        ∧ (∀ pt, ci.participant = some pt → pt ≠ "" → jsOr ci.participant r = pt)
        ∧ (truthyS ci.participant = false → jsOr ci.participant r = r) := by
  intro agentId selfJid store now msg o r c et ci qm hrj hb hm hreply het hci hqm
  have hclass : isMediaClass (detectMessageType (some c)).1 = false := by
    rw [hreply]
    rfl
  simp only [processMessage, hrj, hm, if_neg hb, hreply, het, hci, hqm, hclass]
  refine ⟨_, rfl, ?_, jsSubstr_length_le _ _, ?_, ?_⟩
  · simp [hreply, het, hci, hqm]
  · intro pt hp hne
    simp [jsOr, truthyS, hp, hne]
  · intro h
    simp [jsOr, h]

/-- C10 witness: a concrete inbound reply quoting a 150-character message
is relayed with the 100-character excerpt and the participant as origin. -/
theorem c10_quoted_excerpt_witness :
    ∃ p, processMessage ("agent1") (some ("999@s.whatsapp.net")) demoStore 42
        demoReplyMsg MediaOutcome.noBuffer = some p
      ∧ p.message_metadata.quoted_message =
          some { id := some ("ST1")
                 body := jsSubstr (extractMessageText (some demoQuotedContent)) 100
                 sender := jsOr (some ("555@s.whatsapp.net")) ("123@s.whatsapp.net") }
      ∧ (jsSubstr (extractMessageText (some demoQuotedContent)) 100).length ≤ 100
      ∧ (∀ pt, (some ("555@s.whatsapp.net") : Option String) = some pt → pt ≠ "" →
          jsOr (some ("555@s.whatsapp.net")) ("123@s.whatsapp.net") = pt)
      ∧ (truthyS (some ("555@s.whatsapp.net")) = false →
          jsOr (some ("555@s.whatsapp.net")) ("123@s.whatsapp.net") = ("123@s.whatsapp.net")) := by
  exact c10_quoted_excerpt ("agent1") (some ("999@s.whatsapp.net")) demoStore 42
    demoReplyMsg MediaOutcome.noBuffer ("123@s.whatsapp.net") demoReplyContent
    (WAExtendedText.mk (some ("ok!"))
      (some (WAContextInfo.mk (some demoQuotedContent) (some ("ST1"))
        (some ("555@s.whatsapp.net")))))
    (WAContextInfo.mk (some demoQuotedContent) (some ("ST1")) (some ("555@s.whatsapp.net")))
    demoQuotedContent
    rfl (by decide) rfl (by decide) rfl rfl rfl

end Wableys
